import Mathlib

/-!
Shallow embedding of `src/src/v8/v8filter.cpp` (namespace `mc_v8`, class
`V8Filter`): the filter lifecycle Initialize / Run / RunWithCallbackLog /
Destroy, the helper CompileAndLoadScript / ReportException, and the two
determinism-preamble script constants `jsFixture` and `jsLimitMathSet`.

The V8 engine itself is an external collaborator: its responses (compile
success/failure, the caught exception value and message, the value returned
by the entry function, the callback log entries produced during a call, the
termination-reason string) are supplied as explicit behaviour inputs to the
embedded functions, and the embedding reproduces exactly how the C++ code
reacts to each response.
-/

namespace mc_v8

/-- Status codes from `utils/define.h` used by this file (only the two
distinguished by the spec matter: no-error and internal-error). -/
inductive MCError where
  | MC_ERR_NOERROR
  | MC_ERR_INTERNAL_ERROR
deriving DecidableEq, Repr

/-- An engine-level value as far as the host code observes it:
`IsNull()`, `IsString()`, `IsFunction()`, and the text `V82String`
produces when the host converts it to a `std::string`. -/
structure JSValue where
  isNull : Bool
  isString : Bool
  isFunction : Bool
  text : String
deriving DecidableEq, Repr

/-- The part of a `v8::Message` the host reads in `ReportException`. -/
structure V8Message where
  scriptResourceName : String
  lineNumber : Int
  startColumn : Int
  endColumn : Int
  sourceLine : String
deriving DecidableEq, Repr

/-- What the host observes of a `v8::TryCatch` after a failed engine call:
the exception value (`tryCatch.Exception()`) and the optional diagnostic
message object (`tryCatch.Message()`, `none` when `IsEmpty()`). -/
structure TryCatchInfo where
  exception : JSValue
  message : Option V8Message
deriving DecidableEq, Repr

/-- Engine behaviour for one `CompileAndLoadScript` call:
compilation fails with a caught exception, the top-level run fails with a
caught exception, or both succeed and `entryVal` is what
`context->Global()->Get(context, functionName)` then yields
(`none` when `ToLocal` fails). -/
inductive CompileRunOutcome where
  | compileFail (tc : TryCatchInfo)
  | runFail (tc : TryCatchInfo)
  | success (entryVal : Option JSValue)
deriving DecidableEq, Repr

/-- Engine behaviour for the entry-function call inside `Run`:
`completed v` when `Call(...).ToLocal(&result)` is true with result `v`,
`failed tc` when it is false with `tc` the caught try-catch state. -/
inductive CallOutcome where
  | completed (result : JSValue)
  | failed (tc : TryCatchInfo)
deriving DecidableEq, Repr

/-- Engine behaviour for one `Run` call: the outcome of the entry-function
call, the callback-log entries host callbacks record during it (when
logging is enabled), and `m_engine->TerminationReason()`. -/
structure RunBehavior where
  outcome : CallOutcome
  loggedCalls : List String
  terminationReason : String
deriving DecidableEq, Repr

/-- Modelled from the spec: the engine handle's per-isolate user data
(`v8engine.h`, not under `src/`) carries the per-run callback-invocation
log; "reset the per-run callback log (cleared or newly started) according
to the log flag". Log entries are abstracted as strings. -/
structure IsolateData where
  withCallbackLog : Bool
  callbacks : List String
deriving DecidableEq, Repr

/-- Modelled from the spec: `IsolateData::Reset(withCallbackLog)` clears the
callback log and records whether this run should log callback invocations. -/
def IsolateData.Reset (_ : IsolateData) (withLog : Bool) : IsolateData :=
  { withCallbackLog := withLog, callbacks := [] }

/-- The fields of `V8Filter` that the embedded operations read or write:
`m_engine` (abstracted to whether a handle is held), `m_isRunning`,
`m_context` (abstracted to whether the persistent handle is non-empty) and
`m_filterFunction` (`none` when the persistent handle is empty). -/
structure V8Filter where
  m_engine : Bool
  m_isRunning : Bool
  m_context : Bool
  m_filterFunction : Option JSValue
deriving DecidableEq, Repr

/-- `V8Filter::Zero`: null the engine pointer and clear the running flag
(the persistent handles are separate members, reset in `Destroy`). -/
def V8Filter.Zero (s : V8Filter) : V8Filter :=
  { s with m_engine := false, m_isRunning := false }

/-- Result of `Destroy`: the new field state, whether
`TerminateExecution()` was sent to the engine, and the returned status. -/
structure DestroyOutput where
  state : V8Filter
  terminated : Bool
  status : MCError
deriving DecidableEq, Repr

/-- `V8Filter::Destroy`: send `TerminateExecution` iff `m_isRunning`,
reset `m_filterFunction` and `m_context`, then `Zero`, returning
`MC_ERR_NOERROR`. -/
def V8Filter.Destroy (s : V8Filter) : DestroyOutput :=
  { state := V8Filter.Zero { s with m_filterFunction := none, m_context := false }
    terminated := s.m_isRunning
    status := .MC_ERR_NOERROR }

/-- Model of `strprintf` / `tfm::format` (tinyformat, `utils/tinyformat.h`,
not under `src/`) for one string argument, restricted to the format strings
this file uses: tinyformat substitutes arguments at percent-conversions
such as `%s`; any other text, including a brace pair `\x7b\x7d`, is
copied verbatim and never receives an argument. -/
def substPercentS (arg : String) : List Char → List Char
  | [] => []
  | '%' :: 's' :: rest => arg.toList ++ rest
  | c :: rest => c :: substPercentS arg rest

/-- `strprintf(fmt, arg)` for the single-string-argument calls in this file. -/
def strprintf1 (fmt arg : String) : String :=
  String.mk (substPercentS arg fmt.toList)

/-- Boolean substring test used to state facts about diagnostic texts. -/
def listInfix (pat : List Char) : List Char → Bool
  | [] => pat.isEmpty
  | c :: rest => (pat.isPrefixOf (c :: rest)) || listInfix pat rest

/-- `strContains hay pat` is true iff `pat` occurs contiguously in `hay`. -/
def strContains (hay pat : String) : Bool :=
  listInfix pat.toList hay.toList

/-- The fixed base determinism preamble (`jsFixture`), transcribed line by
line from the raw string literal in the source; `\x7b`/`\x7d` are the
braces of the JavaScript text. -/
def jsFixture : String :=
  "\nMath.random = function() \x7b\n"
  ++ "    return 0;\n"
  ++ "\x7d;\n"
  ++ "\n"
  ++ "Date.now = function() \x7b\n"
  ++ "    return 0;\n"
  ++ "\x7d;\n"
  ++ "\n"
  ++ "var bind = Function.bind;\n"
  ++ "var unbind = bind.bind(bind);\n"
  ++ "\n"
  ++ "function instantiate(constructor, args) \x7b\n"
  ++ "    return new (unbind(constructor, null).apply(null, args));\n"
  ++ "\x7d\n"
  ++ "\n"
  ++ "Date = function (Date) \x7b\n"
  ++ "    var names = Object.getOwnPropertyNames(Date);\n"
  ++ "    // Loop through them\n"
  ++ "    for (var i = 0; i < names.length; i++) \x7b\n"
  ++ "        // Skip props already in the MyDate object\n"
  ++ "        if (names[i] in MyDate) continue;\n"
  ++ "        // Get property description from o\n"
  ++ "        var desc = Object.getOwnPropertyDescriptor(Date, names[i]);\n"
  ++ "        // Use it to create property on MyDate\n"
  ++ "        Object.defineProperty(MyDate, names[i], desc);\n"
  ++ "    \x7d\n"
  ++ "\n"
  ++ "    return MyDate;\n"
  ++ "\n"
  ++ "    function MyDate() \x7b\n"
  ++ "        if (arguments.length == 0) \x7b\n"
  ++ "            arguments = [0];\n"
  ++ "        \x7d\n"
  ++ "        return instantiate(Date, arguments);\n"
  ++ "    \x7d\n"
  ++ "\x7d(Date);\n"

/-- The feature-gated math/date restriction fragment (`jsLimitMathSet`),
transcribed line by line from the raw string literal in the source. -/
def jsLimitMathSet : String :=
  "\nvar mathKeep = new Set([\"abs\", \"ceil\", \"floor\", \"max\", \"min\", \"round\", \"sign\", \"trunc\", \"log\", \"log10\", \"log2\", \"pow\",\n"
  ++ "    \"sqrt\", \"E\", \"LN10\", \"LN2\", \"LOG10E\", \"LOG2E\", \"PI\", \"SQRT1_2\", \"SQRT2\" ]);\n"
  ++ "for (var fn of Object.getOwnPropertyNames(Math)) \x7b\n"
  ++ "    if (! mathKeep.has(fn)) \x7b\n"
  ++ "        delete Math[fn];\n"
  ++ "    \x7d\n"
  ++ "\x7d\n"
  ++ "delete Date.now;\n"

/-- The allow-list of `Math` properties the restriction fragment retains,
transcribed from the `mathKeep` Set literal inside `jsLimitMathSet`. -/
def mathKeep : List String :=
  ["abs", "ceil", "floor", "max", "min", "round", "sign", "trunc",
   "log", "log10", "log2", "pow", "sqrt",
   "E", "LN10", "LN2", "LOG10E", "LOG2E", "PI", "SQRT1_2", "SQRT2"]

/-- The preamble text `Initialize` builds: `jsFixture`, extended by
`jsLimitMathSet` when `mc_gState->m_Features->FilterLimitedMathSet()`. -/
def jsPreamble (limitMathSet : Bool) : String :=
  jsFixture ++ (if limitMathSet then jsLimitMathSet else "")

/-- `V8Filter::ReportException`: the result text is the exception value
converted to a string (`V82String(isolate, tryCatch->Exception())`); the
message object, when present, is only used for debug logging. -/
def ReportException (tc : TryCatchInfo) : String :=
  tc.exception.text

/-- Result of `CompileAndLoadScript`: returned status, the diagnostic
out-parameter, and the (possibly updated) `m_filterFunction` member. -/
structure CLSOutput where
  status : MCError
  strResult : String
  m_filterFunction : Option JSValue
deriving DecidableEq, Repr

/-- `V8Filter::CompileAndLoadScript`: report a caught compile or run
exception via `ReportException`; otherwise, when a non-empty
`functionName` was requested, look it up in the context's global object
and either store it in `m_filterFunction` or report
`Cannot find function ... in script`. Every path returns
`MC_ERR_NOERROR`. -/
def V8Filter.CompileAndLoadScript (outcome : CompileRunOutcome)
    (functionName : String) (filterFunction0 : Option JSValue) : CLSOutput :=
  match outcome with
  | .compileFail tc => ⟨.MC_ERR_NOERROR, ReportException tc, filterFunction0⟩
  | .runFail tc => ⟨.MC_ERR_NOERROR, ReportException tc, filterFunction0⟩
  | .success entryVal =>
    if functionName = "" then
      ⟨.MC_ERR_NOERROR, "", filterFunction0⟩
    else
      match entryVal with
      | some v =>
        if v.isFunction then
          ⟨.MC_ERR_NOERROR, "", some v⟩
        else
          ⟨.MC_ERR_NOERROR, strprintf1 "Cannot find function \x27%s\x27 in script" functionName,
           filterFunction0⟩
      | none =>
        ⟨.MC_ERR_NOERROR, strprintf1 "Cannot find function \x27%s\x27 in script" functionName,
         filterFunction0⟩

/-- The external inputs `Initialize` consults: the domain of the global
`callbackLookup` registry, the `FilterLimitedMathSet` feature flag, and
the engine's compile/load behaviour as a function of the script text and
the source origin name. -/
structure InitEnv where
  callbackLookup : List String
  limitMathSet : Bool
  engineCompile : String → String → CompileRunOutcome

/-- Result of `Initialize`: the new field state, the returned status and
the diagnostic out-parameter. -/
structure InitOutput where
  state : V8Filter
  status : MCError
  strResult : String
deriving Repr

/-- The callback-validation loop of `Initialize`: the first requested name
missing from the registry, scanning in request order. -/
def findMissingCallback (registry : List String) : List String → Option String
  | [] => none
  | n :: rest => if registry.contains n then findMissingCallback registry rest else some n

/-- `V8Filter::Initialize`: store the engine handle; fail with
`MC_ERR_INTERNAL_ERROR` on the first unknown callback name (the format
string uses a literal `\x7b\x7d`, which `strprintf` does not treat as a
conversion); otherwise create the context, compile and load the
determinism preamble (releasing the context when its status is non-zero
or its diagnostic non-empty), then compile and load the user script with
entry-function resolution (releasing the context only when its status is
non-zero). -/
def V8Filter.Initialize (s : V8Filter) (env : InitEnv) (script functionName : String)
    (callback_names : List String) : InitOutput :=
  let s1 : V8Filter := { s with m_engine := true }
  match findMissingCallback env.callbackLookup callback_names with
  | some missing =>
    ⟨s1, .MC_ERR_INTERNAL_ERROR, strprintf1 "Undefined callback name: \x7b\x7d" missing⟩
  | none =>
    let s2 : V8Filter := { s1 with m_context := true }
    let out1 := V8Filter.CompileAndLoadScript
      (env.engineCompile (jsPreamble env.limitMathSet) "preamble") "" s2.m_filterFunction
    if out1.status ≠ .MC_ERR_NOERROR ∨ out1.strResult ≠ "" then
      ⟨{ s2 with m_context := false, m_filterFunction := out1.m_filterFunction },
       out1.status, out1.strResult⟩
    else
      let out2 := V8Filter.CompileAndLoadScript
        (env.engineCompile script "<script>") functionName out1.m_filterFunction
      if out2.status ≠ .MC_ERR_NOERROR then
        ⟨{ s2 with m_context := false, m_filterFunction := out2.m_filterFunction },
         out2.status, out2.strResult⟩
      else
        ⟨{ s2 with m_filterFunction := out2.m_filterFunction }, out2.status, out2.strResult⟩

/-- Ghost observation of the order of effects inside `Run`. -/
inductive RunEvent where
  | resetCallbackLog (withLog : Bool)
  | setRunning (b : Bool)
  | callEntry
deriving DecidableEq, Repr

/-- Result of `Run`: the new field state, the engine's per-isolate data,
the returned status, the result/diagnostic out-parameter, and the ghost
event trace. -/
structure RunOutput where
  state : V8Filter
  isolateData : IsolateData
  status : MCError
  strResult : String
  trace : List RunEvent
deriving Repr

/-- `V8Filter::Run`: the very first statement obtains the isolate with
`m_engine->GetIsolate()`, BEFORE the invalid-filter guard — on an
instance holding no engine handle (`m_engine` nulled by `Zero`, i.e.
never initialized or destroyed) this dereferences a null pointer, so the
call has no defined result (`none`). Otherwise: with an empty context or
entry-function handle, report `Trying to run an invalid filter` and
return `MC_ERR_NOERROR` without touching the isolate data or calling
anything; else reset the callback log, set `m_isRunning` around the
entry-function call, and report: the termination reason when the call
failed with a null exception and no message; `ReportException` for any
other failure; the result string verbatim for a string result; the
(cleared) empty string for a non-string result. Every defined path
returns `MC_ERR_NOERROR`. -/
def V8Filter.Run (s : V8Filter) (d : IsolateData) (beh : RunBehavior)
    (withCallbackLog : Bool) : Option RunOutput :=
  if s.m_engine = false then
    none
  else if s.m_context = false ∨ s.m_filterFunction = none then
    some ⟨s, d, .MC_ERR_NOERROR, "Trying to run an invalid filter", []⟩
  else
    let d1 := d.Reset withCallbackLog
    let d2 := if d1.withCallbackLog then
        { d1 with callbacks := d1.callbacks ++ beh.loggedCalls }
      else d1
    let s1 : V8Filter := { s with m_isRunning := false }
    let tr : List RunEvent :=
      [.resetCallbackLog withCallbackLog, .setRunning true, .callEntry, .setRunning false]
    match beh.outcome with
    | .failed tc =>
      if tc.exception.isNull = true ∧ tc.message = none then
        some ⟨s1, d2, .MC_ERR_NOERROR, beh.terminationReason, tr⟩
      else
        some ⟨s1, d2, .MC_ERR_NOERROR, ReportException tc, tr⟩
    | .completed v =>
      some ⟨s1, d2, .MC_ERR_NOERROR, if v.isString then v.text else "", tr⟩

/-- `V8Filter::RunWithCallbackLog`: run with logging enabled, then copy
the accumulated callback log of the isolate data to the caller,
unconditionally — via `m_engine->GetIsolateData()`, a second null
dereference (no defined result) when no engine handle is held; when
`Run` itself already dereferenced a null engine the copy is never
reached. -/
def V8Filter.RunWithCallbackLog (s : V8Filter) (d : IsolateData)
    (beh : RunBehavior) : Option (RunOutput × List String) :=
  match V8Filter.Run s d beh true with
  | none => none
  | some out =>
    if out.state.m_engine = false then
      none
    else
      some (out, out.isolateData.callbacks)

/-- The message `Cannot find function ... in script` is never the empty
string, whatever the function name. -/
theorem strprintf1_cannot_find_ne (fn : String) :
    strprintf1 "Cannot find function \x27%s\x27 in script" fn ≠ "" := by
  simp [strprintf1, substPercentS, String.toList, String.ext_iff]

/-- Every path of `CompileAndLoadScript` returns `MC_ERR_NOERROR`. -/
theorem CompileAndLoadScript_status (outcome : CompileRunOutcome) (fn : String)
    (f0 : Option JSValue) :
    (V8Filter.CompileAndLoadScript outcome fn f0).status = .MC_ERR_NOERROR := by
  cases outcome with
  | compileFail tc => rfl
  | runFail tc => rfl
  | success ev =>
    by_cases hfn : fn = "" <;> cases ev <;> simp [V8Filter.CompileAndLoadScript, hfn]
    rename_i v
    cases v.isFunction <;> simp

/-- `Initialize` returns `MC_ERR_INTERNAL_ERROR` exactly when some
requested callback name is missing from the registry. -/
theorem Initialize_status_internal_iff (s : V8Filter) (env : InitEnv)
    (script fn : String) (cbs : List String) :
    ((V8Filter.Initialize s env script fn cbs).status = .MC_ERR_INTERNAL_ERROR ↔
      findMissingCallback env.callbackLookup cbs ≠ none) := by
  rcases hm : findMissingCallback env.callbackLookup cbs with _ | missing
  · simp only [V8Filter.Initialize, hm]
    split
    · simp [CompileAndLoadScript_status]
    · split <;> simp [CompileAndLoadScript_status]
  · simp [V8Filter.Initialize, hm]

/-- Claim C1 failing input evaluated: an `Initialize` call on a fresh
instance whose preamble loads fine but whose user script fails to compile
returns with non-empty diagnostic text and no entry function, yet the
execution context is still held (`m_context = true`): the release in the
user-script branch is guarded by a status check that never fires, so the
claim that the context is released on every post-creation failure is
violated by the code. -/
theorem c1_context_retained_on_script_failure :
    (V8Filter.Initialize ⟨false, false, false, none⟩
        ⟨[], false,
         fun _ src => if src = "<script>" then
             .compileFail ⟨⟨false, true, false, "SyntaxError: Unexpected token"⟩,
                           some ⟨"<script>", 1, 14, 15, "function main( \x7b"⟩⟩
           else .success none⟩
        "function main( \x7b" "main" []) =
      ⟨⟨true, false, true, none⟩, .MC_ERR_NOERROR, "SyntaxError: Unexpected token"⟩ := by
  rfl

/-- Claim C2 failing input evaluated: requesting the unknown callback name
`missing_cb` makes `Initialize` fail with `MC_ERR_INTERNAL_ERROR` before
any context is created, but the diagnostic text is the literal
`Undefined callback name: \x7b\x7d` — the brace placeholder is not a
`strprintf` conversion, so the message does not contain the missing
callback name, contrary to the claim. -/
theorem c2_message_lacks_callback_name :
    (V8Filter.Initialize ⟨false, false, false, none⟩
        ⟨["verifypermission"], false, fun _ _ => .success none⟩
        "function main() \x7b\x7d" "main" ["missing_cb"]).status = .MC_ERR_INTERNAL_ERROR ∧
    (V8Filter.Initialize ⟨false, false, false, none⟩
        ⟨["verifypermission"], false, fun _ _ => .success none⟩
        "function main() \x7b\x7d" "main" ["missing_cb"]).strResult =
      "Undefined callback name: \x7b\x7d" ∧
    strContains
      (V8Filter.Initialize ⟨false, false, false, none⟩
        ⟨["verifypermission"], false, fun _ _ => .success none⟩
        "function main() \x7b\x7d" "main" ["missing_cb"]).strResult "missing_cb" = false ∧
    (V8Filter.Initialize ⟨false, false, false, none⟩
        ⟨["verifypermission"], false, fun _ _ => .success none⟩
        "function main() \x7b\x7d" "main" ["missing_cb"]).state.m_context = false := by
  refine ⟨rfl, rfl, ?_, rfl⟩
  set_option maxRecDepth 4000 in decide

/-- Claim C3 failing input evaluated: on a never-initialized (or
destroyed) instance no engine handle is held (`Zero` nulls `m_engine`),
and `Run` dereferences it to obtain the isolate BEFORE the
invalid-filter guard, so the call null-derefs with no defined benign
result instead of reporting the invalid-filter message the claim
promises for exactly these instances. On an instance that does hold an
engine handle but no context or entry function (the state a failed
`Initialize` leaves behind), `Run` does report
`Trying to run an invalid filter` with the no-error status, leaving the
state and isolate data untouched and calling nothing (empty trace). -/
theorem c3_run_null_engine_instead_of_benign :
    (V8Filter.Run ⟨false, false, false, none⟩ ⟨false, []⟩
        ⟨.completed ⟨false, true, false, "ok"⟩, [], "reason"⟩ false = none) ∧
    (V8Filter.Run ⟨true, false, false, none⟩ ⟨false, []⟩
        ⟨.completed ⟨false, true, false, "ok"⟩, [], "reason"⟩ false =
      some ⟨⟨true, false, false, none⟩, ⟨false, []⟩, .MC_ERR_NOERROR,
            "Trying to run an invalid filter", []⟩) :=
  ⟨rfl, rfl⟩

/-- Claim C4: on an initialized instance (engine handle, context and
entry function all held), a `Run` whose entry-function call completes
returns `MC_ERR_NOERROR`; the result text is the produced string
verbatim when the value is a string, and the empty string otherwise. -/
theorem c4_run_success_result (s : V8Filter) (d : IsolateData) (beh : RunBehavior)
    (w : Bool) (v : JSValue) (he : s.m_engine = true) (hc : s.m_context = true)
    (hf : s.m_filterFunction ≠ none) (ho : beh.outcome = .completed v) :
    (V8Filter.Run s d beh w).map RunOutput.status = some .MC_ERR_NOERROR ∧
    (v.isString = true →
      (V8Filter.Run s d beh w).map RunOutput.strResult = some v.text) ∧
    (v.isString = false →
      (V8Filter.Run s d beh w).map RunOutput.strResult = some "") := by
  have hcond : ¬(s.m_context = false ∨ s.m_filterFunction = none) := by simp [hc, hf]
  cases hv : v.isString <;>
    simp [V8Filter.Run, he, hcond, ho, hv]

/-- Witness for C4: a string result `ok` is reported verbatim and a
non-string result is reported as the empty string. -/
theorem c4_run_success_result_witness :
    (V8Filter.Run ⟨true, false, true, some ⟨false, false, true, "f"⟩⟩ ⟨false, []⟩
        ⟨.completed ⟨false, true, false, "ok"⟩, [], "reason"⟩ false).map
      RunOutput.strResult = some "ok" ∧
    (V8Filter.Run ⟨true, false, true, some ⟨false, false, true, "f"⟩⟩ ⟨false, []⟩
        ⟨.completed ⟨false, false, false, "42"⟩, [], "reason"⟩ false).map
      RunOutput.strResult = some "" :=
  ⟨(c4_run_success_result _ _ _ _ _ rfl rfl (by simp) rfl).2.1 rfl,
   (c4_run_success_result _ _ _ _ _ rfl rfl (by simp) rfl).2.2 rfl⟩

/-- Claim C5: on an initialized instance, a `Run` whose entry-function
call fails returns `MC_ERR_NOERROR`; the result text is the termination
reason exactly when the caught exception is null and no message object
is present, and the exception converted to text (`ReportException`)
otherwise. -/
theorem c5_run_failure_result (s : V8Filter) (d : IsolateData) (beh : RunBehavior)
    (w : Bool) (tc : TryCatchInfo) (he : s.m_engine = true) (hc : s.m_context = true)
    (hf : s.m_filterFunction ≠ none) (ho : beh.outcome = .failed tc) :
    (V8Filter.Run s d beh w).map RunOutput.status = some .MC_ERR_NOERROR ∧
    (tc.exception.isNull = true ∧ tc.message = none →
      (V8Filter.Run s d beh w).map RunOutput.strResult = some beh.terminationReason) ∧
    (¬(tc.exception.isNull = true ∧ tc.message = none) →
      (V8Filter.Run s d beh w).map RunOutput.strResult = some (ReportException tc)) := by
  have hcond : ¬(s.m_context = false ∨ s.m_filterFunction = none) := by simp [hc, hf]
  by_cases hterm : tc.exception.isNull = true ∧ tc.message = none <;>
    simp [V8Filter.Run, he, hcond, ho, hterm]

/-- Witness for C5: a forced termination (null exception, no message)
reports the externally supplied termination reason. -/
theorem c5_run_failure_result_witness :
    (V8Filter.Run ⟨true, false, true, some ⟨false, false, true, "f"⟩⟩ ⟨false, []⟩
        ⟨.failed ⟨⟨true, false, false, "null"⟩, none⟩, [], "Filter aborted"⟩
        false).map RunOutput.strResult = some "Filter aborted" :=
  (c5_run_failure_result _ _ _ _ _ rfl rfl (by simp) rfl).2.1 ⟨rfl, rfl⟩

/-- Claim C6 counterexample: a script-level runtime failure whose caught
exception converts to the empty string (as a script `throw` of an empty
string produces) makes `CompileAndLoadScript` return `MC_ERR_NOERROR`
with EMPTY diagnostic text, so the claim that every script-level failure
yields non-empty diagnostic text is false as stated. -/
theorem c6_empty_exception_text_counterexample :
    (V8Filter.CompileAndLoadScript
        (.runFail ⟨⟨false, true, false, ""⟩, some ⟨"<script>", 1, 0, 1, "throw \"\";"⟩⟩)
        "main" none) =
      ⟨.MC_ERR_NOERROR, "", none⟩ := by
  rfl

/-- Claim C6 as amended: every `CompileAndLoadScript` path returns the
no-error status; a compile or run failure yields non-empty diagnostic
text whenever the textual rendering of the caught exception is non-empty;
a missing or non-function entry name always yields non-empty diagnostic
text; `Initialize` returns the internal-error status only when a
requested callback name is missing from the registry; and every defined
result of `Run` carries the no-error status. -/
theorem c6_noerror_status_and_diagnostics :
    (∀ outcome fn f0,
      (V8Filter.CompileAndLoadScript outcome fn f0).status = .MC_ERR_NOERROR) ∧
    (∀ tc fn f0, tc.exception.text ≠ "" →
      (V8Filter.CompileAndLoadScript (.compileFail tc) fn f0).strResult ≠ "") ∧
    (∀ tc fn f0, tc.exception.text ≠ "" →
      (V8Filter.CompileAndLoadScript (.runFail tc) fn f0).strResult ≠ "") ∧
    (∀ ev fn f0, fn ≠ "" → (∀ v, ev = some v → v.isFunction = false) →
      (V8Filter.CompileAndLoadScript (.success ev) fn f0).strResult ≠ "") ∧
    (∀ s env script fn cbs,
      (V8Filter.Initialize s env script fn cbs).status = .MC_ERR_INTERNAL_ERROR →
        findMissingCallback env.callbackLookup cbs ≠ none) ∧
    (∀ s d beh w out, V8Filter.Run s d beh w = some out →
      out.status = .MC_ERR_NOERROR) := by
  refine ⟨CompileAndLoadScript_status, ?_, ?_, ?_, ?_, ?_⟩
  · intro tc fn f0 h
    simpa [V8Filter.CompileAndLoadScript, ReportException] using h
  · intro tc fn f0 h
    simpa [V8Filter.CompileAndLoadScript, ReportException] using h
  · intro ev fn f0 hfn hev
    cases ev with
    | none => simp [V8Filter.CompileAndLoadScript, hfn, strprintf1_cannot_find_ne]
    | some v =>
      simp [V8Filter.CompileAndLoadScript, hfn, hev v rfl, strprintf1_cannot_find_ne]
  · intro s env script fn cbs h
    exact (Initialize_status_internal_iff s env script fn cbs).mp h
  · intro s d beh w out hout
    by_cases he : s.m_engine = false
    · simp [V8Filter.Run, he] at hout
    · by_cases hcond : s.m_context = false ∨ s.m_filterFunction = none
      · simp [V8Filter.Run, he, hcond] at hout
        simp [← hout]
      · rcases beh with ⟨outcome, logged, reason⟩
        cases outcome with
        | completed v =>
          simp [V8Filter.Run, he, hcond] at hout
          simp [← hout]
        | failed tc =>
          by_cases hterm : tc.exception.isNull = true ∧ tc.message = none <;>
            simp [V8Filter.Run, he, hcond, hterm] at hout <;>
            simp [← hout]

/-- Witness for amended C6: concrete instances of the hypothesis-bearing
conjuncts — a compile failure and a run failure with non-empty exception
text, a missing entry function, an internal-error `Initialize` whose
callback list indeed contains an unknown name, and a defined `Run`
result carrying the no-error status. -/
theorem c6_noerror_status_and_diagnostics_witness :
    (V8Filter.CompileAndLoadScript
        (.compileFail ⟨⟨false, true, false, "SyntaxError: Unexpected token"⟩, none⟩)
        "main" none).strResult ≠ "" ∧
    (V8Filter.CompileAndLoadScript
        (.runFail ⟨⟨false, true, false, "ReferenceError: x is not defined"⟩, none⟩)
        "main" none).strResult ≠ "" ∧
    (V8Filter.CompileAndLoadScript (.success none) "main" none).strResult ≠ "" ∧
    findMissingCallback
      (InitEnv.callbackLookup ⟨[], false, fun _ _ => .success none⟩) ["missing_cb"] ≠ none ∧
    RunOutput.status ⟨⟨true, false, false, none⟩, ⟨false, []⟩, .MC_ERR_NOERROR,
        "Trying to run an invalid filter", []⟩ = .MC_ERR_NOERROR :=
  ⟨c6_noerror_status_and_diagnostics.2.1 _ "main" none (by decide),
   c6_noerror_status_and_diagnostics.2.2.1 _ "main" none (by decide),
   c6_noerror_status_and_diagnostics.2.2.2.1 none "main" none (by decide)
     (fun v hv => Option.noConfusion hv),
   c6_noerror_status_and_diagnostics.2.2.2.2.1 ⟨false, false, false, none⟩
     ⟨[], false, fun _ _ => .success none⟩ "" "main" ["missing_cb"] rfl,
   c6_noerror_status_and_diagnostics.2.2.2.2.2 ⟨true, false, false, none⟩ ⟨false, []⟩
     ⟨.completed ⟨false, true, false, "ok"⟩, [], "reason"⟩ false _ rfl⟩

/-- Claim C7: the preamble `Initialize` builds equals the fixed base
preamble when the limit-math feature flag is off and the base preamble
concatenated with the math-restriction fragment when it is on; the
retention allow-list of the fragment is exactly the thirteen listed
functions plus the eight named mathematical constants, each quoted name
occurs in the fragment text, and the fragment deletes the current-time
accessor with a `delete Date.now;` statement. -/
theorem c7_preamble_text :
    jsPreamble false = jsFixture ∧
    jsPreamble true = jsFixture ++ jsLimitMathSet ∧
    mathKeep =
      ["abs", "ceil", "floor", "max", "min", "round", "sign", "trunc",
       "log", "log10", "log2", "pow", "sqrt"] ++
      ["E", "LN10", "LN2", "LOG10E", "LOG2E", "PI", "SQRT1_2", "SQRT2"] ∧
    mathKeep.all (fun n => strContains jsLimitMathSet ("\"" ++ n ++ "\"")) = true ∧
    strContains jsLimitMathSet "delete Date.now;" = true := by
  refine ⟨?_, rfl, rfl, ?_, ?_⟩
  · simp [jsPreamble]
  · set_option maxRecDepth 8000 in decide
  · set_option maxRecDepth 8000 in decide

/-- Claim C8: `Destroy` signals forced termination exactly when the
running flag is set, always resets every field to the zeroed state,
always returns the no-error status, and a second `Destroy` on the
resulting state changes nothing and signals nothing. -/
theorem c8_destroy_idempotent (s : V8Filter) :
    (V8Filter.Destroy s).terminated = s.m_isRunning ∧
    (V8Filter.Destroy s).state = ⟨false, false, false, none⟩ ∧
    (V8Filter.Destroy s).status = .MC_ERR_NOERROR ∧
    (V8Filter.Destroy (V8Filter.Destroy s).state).state = (V8Filter.Destroy s).state ∧
    (V8Filter.Destroy (V8Filter.Destroy s).state).terminated = false := by
  exact ⟨rfl, rfl, rfl, rfl, rfl⟩

/-- Claim C9: on an initialized instance, every `Run` reaches the
entry-function call, resets the callback log, sets the running flag
immediately before the call and clears it immediately after (the event
trace is exactly that sequence), and the flag is false in the state
`Run` returns. -/
theorem c9_running_flag_around_call (s : V8Filter) (d : IsolateData)
    (beh : RunBehavior) (w : Bool) (he : s.m_engine = true) (hc : s.m_context = true)
    (hf : s.m_filterFunction ≠ none) :
    (V8Filter.Run s d beh w).map RunOutput.trace =
      some [.resetCallbackLog w, .setRunning true, .callEntry, .setRunning false] ∧
    (V8Filter.Run s d beh w).map (fun out => out.state.m_isRunning) = some false := by
  have hcond : ¬(s.m_context = false ∨ s.m_filterFunction = none) := by simp [hc, hf]
  rcases beh with ⟨outcome, logged, reason⟩
  cases outcome with
  | completed v => simp [V8Filter.Run, he, hcond]
  | failed tc =>
    by_cases hterm : tc.exception.isNull = true ∧ tc.message = none <;>
      simp [V8Filter.Run, he, hcond, hterm]

/-- Witness for C9: a concrete initialized instance running to a string
result. -/
theorem c9_running_flag_around_call_witness :
    (V8Filter.Run ⟨true, false, true, some ⟨false, false, true, "f"⟩⟩ ⟨false, []⟩
        ⟨.completed ⟨false, true, false, "ok"⟩, ["cb"], "reason"⟩ true).map
      RunOutput.trace =
      some [.resetCallbackLog true, .setRunning true, .callEntry, .setRunning false] ∧
    (V8Filter.Run ⟨true, false, true, some ⟨false, false, true, "f"⟩⟩ ⟨false, []⟩
        ⟨.completed ⟨false, true, false, "ok"⟩, ["cb"], "reason"⟩ true).map
      (fun out => out.state.m_isRunning) = some false :=
  c9_running_flag_around_call _ _ _ _ rfl rfl (by simp)

/-- On an instance holding an engine handle, `Run` has a defined result
and leaves the engine handle in place. -/
theorem Run_engine_defined (s : V8Filter) (d : IsolateData) (beh : RunBehavior)
    (w : Bool) (he : s.m_engine = true) :
    ∃ out, V8Filter.Run s d beh w = some out ∧ out.state.m_engine = true := by
  have hmap : (V8Filter.Run s d beh w).map (fun out => out.state.m_engine) = some true := by
    by_cases hcond : s.m_context = false ∨ s.m_filterFunction = none
    · simp [V8Filter.Run, he, hcond]
    · rcases beh with ⟨outcome, logged, reason⟩
      cases outcome with
      | completed v => simp [V8Filter.Run, he, hcond]
      | failed tc =>
        by_cases hterm : tc.exception.isNull = true ∧ tc.message = none <;>
          simp [V8Filter.Run, he, hcond, hterm]
  rcases hrun : V8Filter.Run s d beh w with _ | out <;> rw [hrun] at hmap
  · simp at hmap
  · simp at hmap
    exact ⟨out, rfl, hmap⟩

/-- Claim C10 counterexample: on a never-initialized (or destroyed)
instance — which is exactly an invalid filter the claim says still gets
its log copied — no engine handle is held, and the calls
`m_engine->GetIsolate()` inside `Run` and `m_engine->GetIsolateData()`
in `RunWithCallbackLog` dereference a null pointer, so the call has no
defined result and no log is copied. -/
theorem c10_null_engine_counterexample :
    V8Filter.RunWithCallbackLog ⟨false, false, false, none⟩ ⟨true, ["stale"]⟩
        ⟨.completed ⟨false, true, false, "ok"⟩, ["cb"], "reason"⟩ = none := by
  rfl

/-- Claim C10 as amended: on an instance holding an engine handle,
`RunWithCallbackLog` returns exactly the run output of `Run` with
logging enabled paired with the accumulated callback log of the isolate
data, whatever the run outcome — in particular, on an invalid filter
that still holds an engine handle (the state a failed `Initialize`
leaves behind), the early return leaves the isolate data untouched and
the stale log is what gets copied; on an engine-less instance the call
has no defined result. -/
theorem c10_run_with_callback_log (s : V8Filter) (d : IsolateData) (beh : RunBehavior)
    (he : s.m_engine = true) :
    (∃ out, V8Filter.Run s d beh true = some out ∧
      V8Filter.RunWithCallbackLog s d beh = some (out, out.isolateData.callbacks)) ∧
    (s.m_context = false ∨ s.m_filterFunction = none →
      V8Filter.RunWithCallbackLog s d beh =
        some (⟨s, d, .MC_ERR_NOERROR, "Trying to run an invalid filter", []⟩,
              d.callbacks)) := by
  obtain ⟨out, hrun, heng⟩ := Run_engine_defined s d beh true he
  refine ⟨⟨out, hrun, ?_⟩, fun h => ?_⟩
  · simp [V8Filter.RunWithCallbackLog, hrun, heng]
  · simp [V8Filter.RunWithCallbackLog, V8Filter.Run, he, h]

/-- Witness for amended C10: an engine-holding invalid filter still
copies the (stale) log. -/
theorem c10_run_with_callback_log_witness :
    V8Filter.RunWithCallbackLog ⟨true, false, false, none⟩ ⟨true, ["stale"]⟩
        ⟨.completed ⟨false, true, false, "ok"⟩, ["cb"], "reason"⟩ =
      some (⟨⟨true, false, false, none⟩, ⟨true, ["stale"]⟩, .MC_ERR_NOERROR,
            "Trying to run an invalid filter", []⟩, ["stale"]) :=
  (c10_run_with_callback_log _ _ _ rfl).2 (Or.inl rfl)

end mc_v8
